import Mathlib

/-! Formal model of the OpenOil3D oil-drift model (`opendrift/models/openoil3D.py`):
the per-step operation order of `update`, the surface-interaction and
resurfacing rules acting on the element arrays, the required-variable and
fallback tables, the terminal-velocity computation, and the profile argument
handling. Machine floats of the source are modelled as exact rationals or
reals. -/

namespace OpenOil3D

/-- The sub-operations invoked by the body of `OpenOil3D.update`. -/
inductive OilOp
  | oilWeathering
  | updateTerminalVelocity
  | verticalMixing
  | verticalAdvection
  | advectOil
deriving DecidableEq, Repr

/-- Trace of sub-operations performed by one call to `OpenOil3D.update`,
transcribed line by line from the body of `update` in `openoil3D.py`:
`oil_weathering()`, then the turbulent-mixing block
(`update_terminal_velocity()` and `vertical_mixing()`) guarded by the config
option `processes:turbulentmixing`, then `vertical_advection()` guarded by
`processes:verticaladvection`, then `advect_oil()`. -/
def update (turbulentmixing verticaladvection : Bool) : List OilOp :=
  let trace := [OilOp.oilWeathering]
  let trace := if turbulentmixing then
    trace ++ [OilOp.updateTerminalVelocity, OilOp.verticalMixing] else trace
  let trace := if verticaladvection then
    trace ++ [OilOp.verticalAdvection] else trace
  trace ++ [OilOp.advectOil]

/-- Claim C1: `OpenOil3D.update` performs its sub-operations in the fixed
order: oil weathering first, then (only if `processes:turbulentmixing` is
true) terminal-velocity update immediately followed by vertical mixing, then
(only if `processes:verticaladvection` is true) vertical advection, and
finally horizontal advection; disabled options skip exactly their own
sub-operation and no other. -/
theorem update_operation_order :
    update true true = [OilOp.oilWeathering, OilOp.updateTerminalVelocity,
      OilOp.verticalMixing, OilOp.verticalAdvection, OilOp.advectOil] ∧
    update true false = [OilOp.oilWeathering, OilOp.updateTerminalVelocity,
      OilOp.verticalMixing, OilOp.advectOil] ∧
    update false true = [OilOp.oilWeathering, OilOp.verticalAdvection,
      OilOp.advectOil] ∧
    update false false = [OilOp.oilWeathering, OilOp.advectOil] := by
  decide

/-- The element-array state mutated by `surface_interaction` and
`resurface_elements`: the parallel arrays `self.elements.z` (depth in m,
0 = surface) and `self.elements.diameter` (m), indexed by element slot. -/
structure OilState (n : ℕ) where
  z : Fin n → ℚ
  diameter : Fin n → ℚ

/-- `OpenOil3D.prepare_vertical_mixing`: `self.oil_entrainment_probability`
is the wave entrainment rate (`oil_wave_entrainment_rate()`) times the
configured mixing sub-timestep (`turbulentmixing:timestep`). -/
def prepare_vertical_mixing_probability (entrainment_rate mixing_timestep : ℚ) : ℚ :=
  entrainment_rate * mixing_timestep

/-- `OpenOil3D.surface_interaction`, with the numpy boolean masks compiled to
per-slot conditionals: `surface = z >= 0`; `z[surface] = 0`; a fresh uniform
draw per slot (`random_number`); `entrained = surface & (random_number <
oil_entrainment_probability)`; `z[entrained] =
-turbulentmixing:verticalresolution / 2`; and, only when
`keep_droplet_diameter` is false, `diameter[entrained] =
droplet_diamenter_if_entrained[entrained]` (the diameters pre-drawn in
`prepare_vertical_mixing`). -/
def surface_interaction (keep_droplet_diameter : Bool)
    (oil_entrainment_probability verticalresolution : ℚ)
    {n : ℕ} (s : OilState n)
    (random_number droplet_diamenter_if_entrained : Fin n → ℚ) : OilState n where
  z := fun i =>
    if 0 ≤ s.z i ∧ random_number i < oil_entrainment_probability then
      -verticalresolution / 2
    else if 0 ≤ s.z i then 0 else s.z i
  diameter := fun i =>
    if (0 ≤ s.z i ∧ random_number i < oil_entrainment_probability) ∧
        keep_droplet_diameter = false then
      droplet_diamenter_if_entrained i
    else s.diameter i

/-- `OpenOil3D.resurface_elements`: `surface = where(z >= 0)`;
`z[surface] = 0`; diameters untouched. -/
def resurface_elements {n : ℕ} (s : OilState n) : OilState n where
  z := fun i => if 0 ≤ s.z i then 0 else s.z i
  diameter := s.diameter

/-- Claim C2: after either `surface_interaction` or `resurface_elements`
returns, every element depth satisfies `z ≤ 0`: every element whose depth was
`≥ 0` at entry is set exactly to 0, except those entrained by
`surface_interaction`, which are set to minus half the configured vertical
resolution — a negative value whenever the resolution is positive. -/
theorem surface_depth_bound (keep : Bool) (p res : ℚ) {n : ℕ} (s : OilState n)
    (rand dde : Fin n → ℚ) (hres : 0 ≤ res) :
    (∀ i, (surface_interaction keep p res s rand dde).z i ≤ 0) ∧
    (∀ i, 0 ≤ s.z i →
      (surface_interaction keep p res s rand dde).z i =
        if rand i < p then -res / 2 else 0) ∧
    (∀ i, 0 ≤ s.z i → rand i < p → 0 < res →
      (surface_interaction keep p res s rand dde).z i < 0) ∧
    (∀ i, (resurface_elements s).z i ≤ 0) ∧
    (∀ i, 0 ≤ s.z i → (resurface_elements s).z i = 0) := by
  refine ⟨fun i => ?_, fun i hi => ?_, fun i hi hp hpos => ?_, fun i => ?_,
    fun i hi => ?_⟩
  · simp only [surface_interaction]
    split_ifs with h1 h2
    · linarith
    · linarith
    · linarith [not_le.mp h2]
  · by_cases hp : rand i < p
    · simp only [surface_interaction, if_pos (And.intro hi hp), if_pos hp]
    · have h1 : ¬(0 ≤ s.z i ∧ rand i < p) := fun h => hp h.2
      simp only [surface_interaction, if_neg h1, if_pos hi, if_neg hp]
  · simp only [surface_interaction]
    rw [if_pos ⟨hi, hp⟩]
    linarith
  · simp only [resurface_elements]
    split_ifs with h1
    · linarith
    · linarith [not_le.mp h1]
  · simp only [resurface_elements, if_pos hi]

/-- Claim C2, witness: a concrete surface element with a positive vertical
resolution ends at depth `≤ 0`. -/
theorem surface_depth_bound_witness :
    (0 : ℚ) ≤ 1 ∧
    ∀ i, (surface_interaction true (1/2) 1
      (OilState.mk (fun _ => 5) (fun _ => 3) : OilState 1)
      (fun _ => 1/4) (fun _ => 7)).z i ≤ 0 :=
  ⟨by norm_num,
   (surface_depth_bound true (1/2) 1 (OilState.mk (fun _ => 5) (fun _ => 3))
     (fun _ => 1/4) (fun _ => 7) (by norm_num)).1⟩

/-- Claim C4: in `surface_interaction` an element is entrained if and only if
its depth is `≥ 0` at entry and its uniform draw is strictly below
`oil_entrainment_probability` (the entrainment rate times the mixing
sub-timestep computed in `prepare_vertical_mixing`); entrained elements
receive the pre-drawn droplet diameter exactly when `keep_droplet_diameter`
is false, and when `keep_droplet_diameter` is true (a caller-supplied
diameter at seeding) diameters are never changed. -/
theorem surface_entrainment_condition (keep : Bool) (rate dt res : ℚ)
    {n : ℕ} (s : OilState n) (rand dde : Fin n → ℚ) (i : Fin n) :
    (0 ≤ s.z i ∧ rand i < prepare_vertical_mixing_probability rate dt →
      (surface_interaction keep (prepare_vertical_mixing_probability rate dt)
          res s rand dde).z i = -res / 2 ∧
      (keep = false →
        (surface_interaction keep (prepare_vertical_mixing_probability rate dt)
          res s rand dde).diameter i = dde i) ∧
      (keep = true →
        (surface_interaction keep (prepare_vertical_mixing_probability rate dt)
          res s rand dde).diameter i = s.diameter i)) ∧
    (¬(0 ≤ s.z i ∧ rand i < prepare_vertical_mixing_probability rate dt) →
      (surface_interaction keep (prepare_vertical_mixing_probability rate dt)
          res s rand dde).z i = (if 0 ≤ s.z i then 0 else s.z i) ∧
      (surface_interaction keep (prepare_vertical_mixing_probability rate dt)
          res s rand dde).diameter i = s.diameter i) := by
  constructor
  · intro hent
    refine ⟨?_, ?_, ?_⟩
    · simp only [surface_interaction, if_pos hent]
    · intro hk
      simp only [surface_interaction, if_pos (And.intro hent hk)]
    · intro hk
      have : ¬((0 ≤ s.z i ∧
          rand i < prepare_vertical_mixing_probability rate dt) ∧
          keep = false) := by
        simp [hk]
      simp only [surface_interaction, if_neg this]
  · intro hnot
    constructor
    · simp only [surface_interaction, if_neg hnot]
    · have : ¬((0 ≤ s.z i ∧
          rand i < prepare_vertical_mixing_probability rate dt) ∧
          keep = false) := fun h => hnot h.1
      simp only [surface_interaction, if_neg this]

/-- Claim C4, witness: a concrete entrained element (depth 0, draw 1/4 below
probability 1·(1/2)) with `keep_droplet_diameter` false gets depth `-res/2`
and the pre-drawn diameter. -/
theorem surface_entrainment_condition_witness :
    (surface_interaction false (prepare_vertical_mixing_probability 1 (1/2)) 2
      (OilState.mk (fun _ => 0) (fun _ => 3) : OilState 1)
      (fun _ => 1/4) (fun _ => 5)).z 0 = -2 / 2 ∧
    (surface_interaction false (prepare_vertical_mixing_probability 1 (1/2)) 2
      (OilState.mk (fun _ => 0) (fun _ => 3) : OilState 1)
      (fun _ => 1/4) (fun _ => 5)).diameter 0 = 5 := by
  have h := surface_entrainment_condition false 1 (1/2) 2
    (OilState.mk (fun _ => 0) (fun _ => 3) : OilState 1)
    (fun _ => 1/4) (fun _ => 5) 0
  have hc : (0 : ℚ) ≤ 0 ∧ (1/4 : ℚ) < prepare_vertical_mixing_probability 1 (1/2) := by
    constructor
    · norm_num
    · show (1/4 : ℚ) < 1 * (1/2)
      norm_num
  exact ⟨(h.1 hc).1, (h.1 hc).2.1 rfl⟩

/-- Claim C10: `surface_interaction` leaves the depth and diameter of every
element whose depth is strictly below 0 at entry unchanged — only elements at
or above the surface can be modified, since the entrained set is a subset of
the surface set. -/
theorem surface_interaction_frame (keep : Bool) (p res : ℚ) {n : ℕ}
    (s : OilState n) (rand dde : Fin n → ℚ) (i : Fin n) (hz : s.z i < 0) :
    (surface_interaction keep p res s rand dde).z i = s.z i ∧
    (surface_interaction keep p res s rand dde).diameter i = s.diameter i := by
  have hns : ¬(0 ≤ s.z i) := not_le.mpr hz
  have h1 : ¬(0 ≤ s.z i ∧ rand i < p) := fun h => hns h.1
  have h2 : ¬((0 ≤ s.z i ∧ rand i < p) ∧ keep = false) := fun h => hns h.1.1
  constructor
  · simp only [surface_interaction, if_neg h1, if_neg hns]
  · simp only [surface_interaction, if_neg h2]

/-- Claim C10, witness: a concrete subsurface element (depth -1) is left
unchanged by `surface_interaction`. -/
theorem surface_interaction_frame_witness :
    (surface_interaction false (1/2) 1
      (OilState.mk (fun _ => -1) (fun _ => 3) : OilState 1)
      (fun _ => 0) (fun _ => 7)).z 0 = -1 ∧
    (surface_interaction false (1/2) 1
      (OilState.mk (fun _ => -1) (fun _ => 3) : OilState 1)
      (fun _ => 0) (fun _ => 7)).diameter 0 = 3 :=
  surface_interaction_frame false (1/2) 1
    (OilState.mk (fun _ => -1) (fun _ => 3)) (fun _ => 0) (fun _ => 7) 0
    (by norm_num)

/-- `OpenOil3D.required_variables`, transcribed from the class attribute. -/
def required_variables : List String :=
  ["x_sea_water_velocity", "y_sea_water_velocity",
   "sea_surface_wave_significant_height",
   "sea_surface_wave_stokes_drift_x_velocity",
   "sea_surface_wave_stokes_drift_y_velocity",
   "sea_surface_wave_period_at_variance_spectral_density_maximum",
   "sea_surface_wave_mean_period_from_variance_spectral_density_second_frequency_moment",
   "sea_ice_area_fraction",
   "x_wind", "y_wind", "land_binary_mask",
   "sea_floor_depth_below_sea_level",
   "ocean_vertical_diffusivity",
   "sea_water_temperature",
   "sea_water_salinity",
   "upward_sea_water_velocity"]

/-- `OpenOil3D.fallback_values`, transcribed from the class attribute. -/
def fallback_values : List (String × ℚ) :=
  [("x_sea_water_velocity", 0),
   ("y_sea_water_velocity", 0),
   ("sea_surface_wave_significant_height", 0),
   ("sea_surface_wave_stokes_drift_x_velocity", 0),
   ("sea_surface_wave_stokes_drift_y_velocity", 0),
   ("sea_surface_wave_period_at_variance_spectral_density_maximum", 0),
   ("sea_surface_wave_mean_period_from_variance_spectral_density_second_frequency_moment", 0),
   ("sea_ice_area_fraction", 0),
   ("x_wind", 0), ("y_wind", 0),
   ("sea_floor_depth_below_sea_level", 10000),
   ("ocean_vertical_diffusivity", 2/100),
   ("sea_water_temperature", 10),
   ("sea_water_salinity", 34),
   ("upward_sea_water_velocity", 0)]

/-- `OpenOil3D.required_profiles`, transcribed from the class attribute. -/
def required_profiles : List String :=
  ["sea_water_temperature", "sea_water_salinity", "ocean_vertical_diffusivity"]

/-- `OpenOil3D.required_profiles_z_range`, transcribed from the class
attribute: the depth range (m) which requested profiles shall cover. -/
def required_profiles_z_range : ℚ × ℚ := (-120, 0)

/-- Failure of the environment aggregator, naming the missing variable. -/
inductive EnvError
  | MissingEnvironmentData (variable_name : String)
deriving DecidableEq, Repr

/-- Modelled from the spec: the environment aggregator (`get_environment` of
the base model) is not under `src/`; per the spec, a query point covered by no
registered reader receives the variable's fallback constant when one exists,
and when no fallback entry exists the aggregator fails with
`MissingEnvironmentData` naming the variable. `reader_value` is the value
supplied by the highest-priority covering reader, `none` when no registered
reader covers the point for that variable. -/
def get_environment (fallbacks : List (String × ℚ))
    (reader_value : String → Option ℚ) (variable_name : String) :
    Except EnvError ℚ :=
  match reader_value variable_name with
  | some v => Except.ok v
  | none =>
    match fallbacks.lookup variable_name with
    | some c => Except.ok c
    | none => Except.error (EnvError.MissingEnvironmentData variable_name)

/-- Claim C3: for every variable in `required_variables` and a query point
covered by no registered reader, the aggregator returns the variable's entry
in `fallback_values` when one exists and fails with `MissingEnvironmentData`
naming the variable when none exists; for `OpenOil3D` every required variable
except `land_binary_mask` has a fallback constant defined. -/
theorem fallback_policy (reader_value : String → Option ℚ) (v : String)
    (hv : v ∈ required_variables) (hnone : reader_value v = none) :
    (∀ c, fallback_values.lookup v = some c →
      get_environment fallback_values reader_value v = Except.ok c) ∧
    (fallback_values.lookup v = none →
      get_environment fallback_values reader_value v =
        Except.error (EnvError.MissingEnvironmentData v)) ∧
    (v ≠ "land_binary_mask" → (fallback_values.lookup v).isSome = true) ∧
    fallback_values.lookup "land_binary_mask" = none := by
  refine ⟨fun c hc => ?_, fun hc => ?_, fun hne => ?_, by decide⟩
  · simp only [get_environment, hnone, hc]
  · simp only [get_environment, hnone, hc]
  · have hall : ∀ x ∈ required_variables, x ≠ "land_binary_mask" →
        (fallback_values.lookup x).isSome = true := by decide
    exact hall v hv hne

/-- Claim C3, witness: with no reader covering the point,
`ocean_vertical_diffusivity` (a required variable) receives its fallback
constant 0.02 m²/s. -/
theorem fallback_policy_witness :
    get_environment fallback_values (fun _ => none)
      "ocean_vertical_diffusivity" = Except.ok (2/100) ∧
    get_environment fallback_values (fun _ => none) "land_binary_mask" =
      Except.error (EnvError.MissingEnvironmentData "land_binary_mask") :=
  ⟨(fallback_policy (fun _ => none) "ocean_vertical_diffusivity"
      (by decide) rfl).1 (2/100) rfl,
   (fallback_policy (fun _ => none) "land_binary_mask"
      (by decide) rfl).2.1 rfl⟩

/-- Claim C8: the set of variables `OpenOil3D` requests as vertical profiles
is exactly sea-water temperature, sea-water salinity and ocean vertical
diffusivity, it is a subset of `required_variables`, and the requested
profile depth range is `[-120, 0]` — a sub-interval of depth `≤ 0` ending at
the surface. -/
theorem required_profiles_exact :
    "sea_water_temperature" ∈ required_profiles ∧
    "sea_water_salinity" ∈ required_profiles ∧
    "ocean_vertical_diffusivity" ∈ required_profiles ∧
    required_profiles.length = 3 ∧
    (∀ v ∈ required_profiles, v ∈ required_variables) ∧
    required_profiles_z_range.1 = -120 ∧
    required_profiles_z_range.2 = 0 ∧
    required_profiles_z_range.1 ≤ required_profiles_z_range.2 := by
  decide

/-- Claim C8, witness: one concrete profile variable, sea-water salinity, is
among the required variables. -/
theorem required_profiles_exact_witness :
    "sea_water_salinity" ∈ required_variables :=
  required_profiles_exact.2.2.2.2.1 "sea_water_salinity" (by decide)

/-- One draw of `np.random.uniform(lo, hi)`: a deterministic transform of a
unit variate `u` of the seeded generator stream. -/
def uniform_draw (lo hi u : ℚ) : ℚ := lo + (hi - lo) * u

/-- The subsea droplet diameters drawn by `OpenOil3D.seed_elements` via
`np.random.uniform(sub_dmin, sub_dmax, number)`: entry `k` of the batch is a
deterministic function of generator stream position `k`, in stable element
order. -/
def seed_elements_subsea_diameters (stream : ℕ → ℚ) (sub_dmin sub_dmax : ℚ)
    (number : ℕ) : List ℚ :=
  (List.range number).map fun k => uniform_draw sub_dmin sub_dmax (stream k)

/-- `OpenOil3D.get_wave_breaking_droplet_diameter`: `np.random.choice` over
the fixed droplet spectrum with its fixed probability table; each of the
`number` samples is the spectrum's inverse cumulative distribution applied to
one generator variate, in stable element order. -/
def get_wave_breaking_droplet_diameter (inverse_cdf : ℚ → ℚ) (stream : ℕ → ℚ)
    (number : ℕ) : List ℚ :=
  (List.range number).map fun k => inverse_cdf (stream k)

/-- One surface-mixing step over `n` active elements:
`prepare_vertical_mixing` draws the `n` candidate droplet diameters (stream
positions `0..n-1`), then `surface_interaction` draws its `n` uniforms
(stream positions `n..2n-1`); every draw is a deterministic function of the
seeded generator stream and the stable slot ordering. -/
def mixing_step (inverse_cdf : ℚ → ℚ) (stream : ℕ → ℚ) (keep : Bool)
    (rate dt res : ℚ) {n : ℕ} (s : OilState n) : OilState n :=
  surface_interaction keep (prepare_vertical_mixing_probability rate dt) res s
    (fun i => stream (n + i.val)) (fun i => inverse_cdf (stream i.val))

/-- Claim C5: two runs with identical seeded generator state (identical
streams, at least on the draws actually consumed), identical configuration
and identical inputs produce identical outputs: every random draw in
`seed_elements`, `surface_interaction` and
`get_wave_breaking_droplet_diameter` is a deterministic function of the
generator stream and the stable element ordering. -/
theorem run_determinism (inverse_cdf : ℚ → ℚ) (stream1 stream2 : ℕ → ℚ)
    (keep : Bool) (rate dt res sub_dmin sub_dmax : ℚ) (number : ℕ) {n : ℕ}
    (s : OilState n)
    (hseed : ∀ k < number, stream1 k = stream2 k)
    (hmix : ∀ k < 2 * n, stream1 k = stream2 k) :
    seed_elements_subsea_diameters stream1 sub_dmin sub_dmax number =
      seed_elements_subsea_diameters stream2 sub_dmin sub_dmax number ∧
    get_wave_breaking_droplet_diameter inverse_cdf stream1 n =
      get_wave_breaking_droplet_diameter inverse_cdf stream2 n ∧
    (∀ i, (mixing_step inverse_cdf stream1 keep rate dt res s).z i =
      (mixing_step inverse_cdf stream2 keep rate dt res s).z i) ∧
    (∀ i, (mixing_step inverse_cdf stream1 keep rate dt res s).diameter i =
      (mixing_step inverse_cdf stream2 keep rate dt res s).diameter i) := by
  refine ⟨?_, ?_, fun i => ?_, fun i => ?_⟩
  · simp only [seed_elements_subsea_diameters]
    apply List.map_congr_left
    intro k hk
    rw [hseed k (List.mem_range.mp hk)]
  · simp only [get_wave_breaking_droplet_diameter]
    apply List.map_congr_left
    intro k hk
    have hk2 : k < 2 * n := by
      have := List.mem_range.mp hk
      omega
    rw [hmix k hk2]
  · have hi := i.isLt
    have hrand : stream1 (n + i.val) = stream2 (n + i.val) := hmix _ (by omega)
    simp only [mixing_step, surface_interaction, hrand]
  · have hi := i.isLt
    have hrand : stream1 (n + i.val) = stream2 (n + i.val) := hmix _ (by omega)
    have hdde : stream1 i.val = stream2 i.val := hmix _ (by omega)
    simp only [mixing_step, surface_interaction, hrand, hdde]

/-- Claim C5, witness: two streams that agree on the consumed positions (but
differ beyond them) yield identical seeded diameters and identical
post-mixing depths. -/
theorem run_determinism_witness :
    seed_elements_subsea_diameters (fun k => if k < 2 then (k : ℚ) else 99)
        (1/2000) (1/200) 2 =
      seed_elements_subsea_diameters (fun k => if k < 2 then (k : ℚ) else 77)
        (1/2000) (1/200) 2 ∧
    ∀ i, (mixing_step id (fun k => if k < 2 then (k : ℚ) else 99) false 1
        (1/2) 1 (OilState.mk (fun _ => 0) (fun _ => 3) : OilState 1)).z i =
      (mixing_step id (fun k => if k < 2 then (k : ℚ) else 77) false 1
        (1/2) 1 (OilState.mk (fun _ => 0) (fun _ => 3) : OilState 1)).z i := by
  have h := run_determinism id (fun k => if k < 2 then (k : ℚ) else 99)
    (fun k => if k < 2 then (k : ℚ) else 77) false 1 (1/2) 1 (1/2000) (1/200)
    2 (OilState.mk (fun _ => 0) (fun _ => 3) : OilState 1)
    (by decide) (by decide)
  exact ⟨h.1, h.2.2.1⟩

/-- Status of an element slot in the pool. -/
inductive ElementStatus
  | scheduled
  | active
  | deactivated
deriving DecidableEq, Repr

/-- Modelled from the spec: the element pool of the base model is not under
`src/`; per slot it records the status, the release time, and (for the
seeding scenario) the great-circle distance of the seeded position from the
seeding center. -/
structure PoolState (n : ℕ) where
  status : Fin n → ElementStatus
  release_time : Fin n → ℚ
  dist_from_center : Fin n → ℚ

/-- Modelled from the spec: the base-model `seed_elements` (not under `src/`)
schedules `count` elements at the given release time, with positions
scattered within the requested radius: slot `k` lands at great-circle
distance `radius * u k` from the center, where `u k ∈ [0, 1]` is the slot's
scatter variate. -/
def seed_elements_scatter (count : ℕ) (radius t : ℚ) (u : Fin count → ℚ) :
    PoolState count where
  status := fun _ => ElementStatus.scheduled
  release_time := fun _ => t
  dist_from_center := fun k => radius * u k

/-- Modelled from the spec: `release_due(current_time)` of the base model
(not under `src/`) transitions all scheduled elements with
`release_time ≤ current_time` to active in one call; other slots are
untouched. -/
def release_due {n : ℕ} (t : ℚ) (s : PoolState n) : PoolState n :=
  { s with
    status := fun i =>
      if s.status i = ElementStatus.scheduled ∧ s.release_time i ≤ t then
        ElementStatus.active
      else s.status i }

/-- Number of element slots currently in the given status. -/
def num_elements_with_status {n : ℕ} (s : PoolState n) (st : ElementStatus) :
    ℕ :=
  (Finset.univ.filter fun i => s.status i = st).card

/-- Counting helper: a filter that keeps every slot has full cardinality. -/
theorem card_filter_univ_of_all {n : ℕ} (p : Fin n → Prop) [DecidablePred p]
    (h : ∀ i, p i) : (Finset.univ.filter p).card = n := by
  rw [Finset.filter_true_of_mem (fun i _ => h i), Finset.card_univ,
    Fintype.card_fin]

/-- Counting helper: a filter that keeps no slot has cardinality zero. -/
theorem card_filter_univ_of_none {n : ℕ} (p : Fin n → Prop) [DecidablePred p]
    (h : ∀ i, ¬p i) : (Finset.univ.filter p).card = 0 := by
  rw [Finset.filter_false_of_mem (fun i _ => h i), Finset.card_empty]

/-- Claim C7: seeding 1000 elements at a single position and time with radius
1000 m schedules exactly 1000 elements; after `release_due` at that time all
1000 become active in one call, each at great-circle distance at most
1000 m from the seeding center; and in general, when no deactivation
condition triggers, the number of active elements after release equals the
number seeded. -/
theorem seed_release_scenario (t : ℚ) (u : Fin 1000 → ℚ)
    (hu : ∀ k, 0 ≤ u k ∧ u k ≤ 1) :
    num_elements_with_status (seed_elements_scatter 1000 1000 t u)
      ElementStatus.scheduled = 1000 ∧
    num_elements_with_status (seed_elements_scatter 1000 1000 t u)
      ElementStatus.active = 0 ∧
    num_elements_with_status (release_due t (seed_elements_scatter 1000 1000 t u))
      ElementStatus.active = 1000 ∧
    (∀ k, (release_due t (seed_elements_scatter 1000 1000 t u)).dist_from_center k
      ≤ 1000) ∧
    (∀ m (p : PoolState m) t2,
      (∀ i, p.status i = ElementStatus.scheduled ∧ p.release_time i ≤ t2) →
      num_elements_with_status (release_due t2 p) ElementStatus.active = m) := by
  refine ⟨?_, ?_, ?_, fun k => ?_, fun m p t2 h => ?_⟩
  · exact card_filter_univ_of_all _ (fun i => by simp [seed_elements_scatter])
  · exact card_filter_univ_of_none _ (fun i => by simp [seed_elements_scatter])
  · exact card_filter_univ_of_all _
      (fun i => by simp [release_due, seed_elements_scatter])
  · simp only [release_due, seed_elements_scatter]
    have h2 := (hu k).2
    have h1 := (hu k).1
    nlinarith
  · have hall : ∀ i, (release_due t2 p).status i = ElementStatus.active := by
      intro i
      simp [release_due, (h i).1, (h i).2]
    exact card_filter_univ_of_all _ (fun i => hall i)

/-- Claim C7, witness: the scenario at concrete scatter variates (all 1/2)
and release time 0. -/
theorem seed_release_scenario_witness :
    num_elements_with_status
      (seed_elements_scatter 1000 1000 0 (fun _ => 1/2))
      ElementStatus.scheduled = 1000 ∧
    num_elements_with_status
      (release_due 0 (seed_elements_scatter 1000 1000 0 (fun _ => 1/2)))
      ElementStatus.active = 1000 ∧
    ∀ k, (release_due 0
      (seed_elements_scatter 1000 1000 0 (fun _ => 1/2))).dist_from_center k
      ≤ 1000 := by
  have h := seed_release_scenario 0 (fun _ => 1/2)
    (fun k => by constructor <;> norm_num)
  exact ⟨h.1, h.2.2.1, h.2.2.2.1⟩

noncomputable section

/-- `OpenOil3D.particle_radius`: radius of entrained particles, half the
element diameter (hardcoded, no distribution). -/
def particle_radius (diameter : ℝ) : ℝ := diameter / 2

/-- Dynamic water viscosity computed in `update_terminal_velocity`:
`my_w = 0.001*(1.7915 - 0.0538*T0 + 0.007*T0**2.0 - 0.0023*S0)`. Machine
floats are modelled as reals. -/
def my_w (T0 S0 : ℝ) : ℝ :=
  0.001 * (1.7915 - 0.0538 * T0 + 0.007 * T0 ^ 2 - 0.0023 * S0)

/-- Kinematic water viscosity `ny_w = my_w / rho_water`, where `rho_water =
sea_water_density(T0, S0)` is computed by inherited code outside this module
and is therefore a parameter here. -/
def ny_w (T0 S0 rho_water : ℝ) : ℝ := my_w T0 S0 / rho_water

/-- The value `update_terminal_velocity` computes for one element, with
`g = 9.81`, `r = particle_radius()*2` and `rhopr = rho_oil/rho_water`: the
low-Reynolds velocity `W = (2*g*(1-rhopr)/(9*ny_w)) * r**2`, overwritten by
the high-Reynolds velocity `((16*g*(1-rhopr)/3)**0.5) * r**0.5` on the slots
where the Reynolds number `Re = 2*r*W/ny_w` exceeds 50. -/
def update_terminal_velocity_elem (T0 S0 rho_oil rho_water diameter : ℝ) :
    ℝ :=
  if 50 < 2 * (particle_radius diameter * 2) *
      (2 * 9.81 * (1 - rho_oil / rho_water) / (9 * ny_w T0 S0 rho_water) *
        (particle_radius diameter * 2) ^ 2) / ny_w T0 S0 rho_water then
    Real.sqrt (16 * 9.81 * (1 - rho_oil / rho_water) / 3) *
      Real.sqrt (particle_radius diameter * 2)
  else
    2 * 9.81 * (1 - rho_oil / rho_water) / (9 * ny_w T0 S0 rho_water) *
      (particle_radius diameter * 2) ^ 2

/-- The element arrays touched by `update_terminal_velocity`: per-slot oil
density (`self.elements.density`), diameter, and the `terminal_velocity`
attribute the result is stored into. -/
structure Oil3DArrays (n : ℕ) where
  density : Fin n → ℝ
  diameter : Fin n → ℝ
  terminal_velocity : Fin n → ℝ

/-- `OpenOil3D.update_terminal_velocity` on the reader path (`Tprofiles` and
`Sprofiles` both `None`): per-element `T0` and `S0` come from
`self.environment`, `rho_water = sea_water_density(T0, S0)` is supplied per
element, and the computed velocity is stored in `terminal_velocity`; density
and diameter are untouched. -/
def update_terminal_velocity {n : ℕ} (T0 S0 rho_water : Fin n → ℝ)
    (e : Oil3DArrays n) : Oil3DArrays n :=
  { e with
    terminal_velocity := fun i =>
      update_terminal_velocity_elem (T0 i) (S0 i) (e.density i) (rho_water i)
        (e.diameter i) }

end

/-- Claim C6: `update_terminal_velocity` assigns every element the
low-Reynolds terminal velocity `W = 2*g*(1-rho_oil/rho_water)*r^2/(9*nu)`
with `r` equal to twice `particle_radius()` — i.e. the element's diameter —
and replaces `W` with the high-Reynolds value
`sqrt(16*g*(1-rho_oil/rho_water)/3)*sqrt(r)` exactly for those elements whose
Reynolds number `2*r*W/nu` exceeds 50; the result is stored in the element's
`terminal_velocity` attribute. -/
theorem terminal_velocity_formula {n : ℕ} (T0 S0 rho_water : Fin n → ℝ)
    (e : Oil3DArrays n) (i : Fin n) :
    particle_radius (e.diameter i) * 2 = e.diameter i ∧
    (update_terminal_velocity T0 S0 rho_water e).terminal_velocity i =
      (if 50 < 2 * e.diameter i *
          (2 * 9.81 * (1 - e.density i / rho_water i) * e.diameter i ^ 2 /
            (9 * ny_w (T0 i) (S0 i) (rho_water i))) /
          ny_w (T0 i) (S0 i) (rho_water i) then
        Real.sqrt (16 * 9.81 * (1 - e.density i / rho_water i) / 3) *
          Real.sqrt (e.diameter i)
      else
        2 * 9.81 * (1 - e.density i / rho_water i) * e.diameter i ^ 2 /
          (9 * ny_w (T0 i) (S0 i) (rho_water i))) := by
  have hr : particle_radius (e.diameter i) * 2 = e.diameter i := by
    unfold particle_radius
    ring
  refine ⟨hr, ?_⟩
  show update_terminal_velocity_elem (T0 i) (S0 i) (e.density i)
    (rho_water i) (e.diameter i) = _
  unfold update_terminal_velocity_elem
  rw [hr]
  have hW : 2 * 9.81 * (1 - e.density i / rho_water i) /
      (9 * ny_w (T0 i) (S0 i) (rho_water i)) * e.diameter i ^ 2 =
      2 * 9.81 * (1 - e.density i / rho_water i) * e.diameter i ^ 2 /
      (9 * ny_w (T0 i) (S0 i) (rho_water i)) := by
    ring
  rw [hW]

/-- The names bound at the top level of the module `openoil3D.py` by its
imported modules (`os`, `np`, `datetime`, `logging`, `OpenOil`, `Oil`,
`OpenDrift3DSimulation`) together with the classes the module itself defines;
`interp1d` is not among them. -/
def module_top_level_names : List String :=
  ["os", "np", "datetime", "logging", "OpenOil", "Oil",
   "OpenDrift3DSimulation", "Oil3D", "OpenOil3D"]

/-- Python runtime errors that the profile branch of
`update_terminal_velocity` can raise: an unresolved name, or an attribute
access on `None`. -/
inductive PyError
  | NameError (name : String)
  | AttributeError (attr : String)
deriving DecidableEq, Repr

/-- The optional-argument handling of `update_terminal_velocity(Tprofiles,
Sprofiles, z_index)`, following the body's evaluation order. When a
temperature or salinity profile is passed (`not (Tprofiles is None and
Sprofiles is None)`): with `z_index` absent, the body first evaluates
`Tprofiles.shape[0]` — an `AttributeError` when `Tprofiles` is `None` — and
then the name `interp1d`, resolved against the module's top-level names and
raising `NameError` when absent; with `z_index` supplied, the inner block is
skipped but `lower = np.minimum(upper+1, Tprofiles.shape[0]-1)` still
evaluates `Tprofiles.shape`, an `AttributeError` when `Tprofiles` is `None`.
On the surviving paths the computation proceeds and the velocities are
stored. -/
def update_terminal_velocity_profiles {α β : Type} (Tprofiles Sprofiles : Option α)
    (z_index : Option β) (velocities : List ℝ) : Except PyError (List ℝ) :=
  if !(Tprofiles.isNone && Sprofiles.isNone) then
    match z_index with
    | none =>
      match Tprofiles with
      | none => Except.error (PyError.AttributeError "shape")
      | some _ =>
        if "interp1d" ∈ module_top_level_names then Except.ok velocities
        else Except.error (PyError.NameError "interp1d")
    | some _ =>
      match Tprofiles with
      | none => Except.error (PyError.AttributeError "shape")
      | some _ => Except.ok velocities
  else Except.ok velocities

/-- Claim C9, counterexample to the claim as stated: at
`Tprofiles = None`, `Sprofiles` supplied and `z_index = None` — a call the
claim covers — the function raises `AttributeError` at `Tprofiles.shape`,
not the claimed unresolved-name error on `interp1d`. -/
theorem profiles_nameerror_counterexample :
    update_terminal_velocity_profiles (none : Option ℕ) (some (0 : ℕ))
      (none : Option ℕ) [] = Except.error (PyError.AttributeError "shape") ∧
    update_terminal_velocity_profiles (none : Option ℕ) (some (0 : ℕ))
      (none : Option ℕ) [] ≠ Except.error (PyError.NameError "interp1d") := by
  constructor
  · rfl
  · intro h
    exact PyError.noConfusion (Except.error.inj h)

/-- Claim C9, amended: in a call to `update_terminal_velocity` with a profile
passed, if `Tprofiles` is supplied and `z_index` is `None` the function fails
with an unresolved-name error (`interp1d` is never imported in the module)
before computing any terminal velocity; if instead `Tprofiles` is `None` and
`Sprofiles` is supplied, it fails with an `AttributeError` at
`Tprofiles.shape` whether or not `z_index` is supplied; the
profile-interpolation path succeeds only when the caller supplies both
`z_index` and `Tprofiles`. -/
theorem profiles_error_paths {α β : Type} (Tp Sp : Option α)
    (zi : Option β) (vel : List ℝ) :
    "interp1d" ∉ module_top_level_names ∧
    (∀ a, Tp = some a → zi = none →
      update_terminal_velocity_profiles Tp Sp zi vel =
        Except.error (PyError.NameError "interp1d")) ∧
    (Tp = none → ∀ b, Sp = some b →
      update_terminal_velocity_profiles Tp Sp zi vel =
        Except.error (PyError.AttributeError "shape")) ∧
    ((Tp.isNone = false ∨ Sp.isNone = false) →
      update_terminal_velocity_profiles Tp Sp zi vel = Except.ok vel →
      zi.isSome = true ∧ Tp.isSome = true) := by
  have hni : ¬("interp1d" ∈ module_top_level_names) := by decide
  refine ⟨hni, fun a hT hz => ?_, fun hT b hS => ?_, fun hbr hok => ?_⟩
  · subst hT
    subst hz
    simp [update_terminal_velocity_profiles, hni]
  · subst hT
    subst hS
    cases zi <;> simp [update_terminal_velocity_profiles]
  · cases zi with
    | none =>
      cases Tp with
      | none =>
        cases Sp with
        | none => simp at hbr
        | some c => simp [update_terminal_velocity_profiles] at hok
      | some a => simp [update_terminal_velocity_profiles, hni] at hok
    | some b =>
      cases Tp with
      | none =>
        cases Sp with
        | none => simp at hbr
        | some c => simp [update_terminal_velocity_profiles] at hok
      | some a => exact ⟨rfl, rfl⟩

/-- Claim C9, witness: passing a concrete `Tprofiles` with no `z_index`
yields the `NameError` on `interp1d`. -/
theorem profiles_error_paths_witness :
    update_terminal_velocity_profiles (some (0 : ℕ)) (none : Option ℕ)
      (none : Option ℕ) [] = Except.error (PyError.NameError "interp1d") :=
  (profiles_error_paths (some (0 : ℕ)) (none : Option ℕ)
    (none : Option ℕ) []).2.1 0 rfl rfl

end OpenOil3D
